import Mathlib

/-
Verification of the instrument-session layer of the AgilentDMM repository
(`AgilentDMM.py`, `LakeshoreTempLog.py`, `DMMLogger.py`).

Shallow embedding conventions:
* Decoded reply text is `List Char` (the `toStr` / `.decode` step on ASCII
  bytes is the identity on text, so replies are modelled directly as the
  decoded character list the Python code manipulates).
* Python `float(s)` is modelled by `pyFloat`: it strips surrounding
  whitespace and parses the decimal / scientific-notation grammar exactly,
  returning `none` on failure (Python raises `ValueError`).  Values are
  exact rationals; the IEEE-754 rounding of the Python runtime is abstracted
  to exact decimal values (every comparison made by the claims is between
  values that the abstraction distinguishes exactly as the doubles would
  be distinguished).  `inf` / `nan` / underscore literals are not modelled;
  no reply in this development uses them.
* `time.time()` samples are oracle inputs (`ℚ`); successive samples of a
  wall clock are assumed nondecreasing where a claim needs it.
* Serial writes performed by an operation are returned explicitly as a list
  of command strings, so "does not touch the transport" is the statement
  that this list is empty.
* The serial handle `self.ser2` is modelled as `Option Unit` (`none` =
  Python `None`); no byte-level transport state is needed by the claims.
-/

/-- Python `str.isspace`-style test used by `float()`'s surrounding-blank
stripping (space, tab, LF, CR, vertical tab, form feed). -/
def isPySpace (c : Char) : Bool :=
  c == ' ' || c == '\t' || c == '\n' || c == '\r' || c == '\x0b' || c == '\x0c'

/-- Strip leading and trailing whitespace, as Python `float()` does before
parsing its argument. -/
def pyStrip (s : List Char) : List Char :=
  ((s.dropWhile isPySpace).reverse.dropWhile isPySpace).reverse

/-- Python slice `s[:-n]`: drop the last `n` characters (empty result when
`s` is shorter than `n`, exactly as in Python). -/
def pyDropRight (n : Nat) (s : List Char) : List Char :=
  s.take (s.length - n)

/-- Maximal leading run of decimal digits: returns their values and the
rest of the input. -/
def digitSpan : List Char → (List Nat × List Char)
  | [] => ([], [])
  | c :: cs =>
    if c.isDigit then
      let p := digitSpan cs
      ((c.toNat - 48) :: p.1, p.2)
    else ([], c :: cs)

/-- Value of a digit-value list read most-significant first. -/
def digitsVal (ds : List Nat) : Nat :=
  List.foldl (fun a d => a * 10 + d) 0 ds

/-- Core of the Python `float()` grammar on already-stripped text:
optional sign, integer digits, optional `.` and fraction digits (at least
one digit overall), optional `e`/`E` exponent with optional sign and at
least one digit, nothing after.  The value is returned exactly as
`(mantissa, exponent)` meaning `mantissa * 10 ^ exponent`, keeping this
stage fully kernel-computable. -/
def pyFloatRep (s : List Char) : Option (Int × Int) :=
  let sp : Int × List Char :=
    match s with
    | '+' :: r => (1, r)
    | '-' :: r => (-1, r)
    | r => (1, r)
  let ipp := digitSpan sp.2
  let fpp : List Nat × List Char :=
    match ipp.2 with
    | '.' :: r => digitSpan r
    | _ => ([], ipp.2)
  if ipp.1.length + fpp.1.length = 0 then none
  else
    let mant : Int := sp.1 * (digitsVal (ipp.1 ++ fpp.1) : Int)
    match fpp.2 with
    | [] => some (mant, -(fpp.1.length : Int))
    | c :: r =>
      if c = 'e' ∨ c = 'E' then
        let ep : Int × List Char :=
          match r with
          | '+' :: r2 => (1, r2)
          | '-' :: r2 => (-1, r2)
          | r2 => (1, r2)
        let edp := digitSpan ep.2
        if edp.1.length = 0 ∨ edp.2.length ≠ 0 then none
        else some (mant, ep.1 * (digitsVal edp.1 : Int) - (fpp.1.length : Int))
      else none

/-- Exact rational value of a `(mantissa, exponent)` pair. -/
def qOfRep (m e : Int) : ℚ :=
  if 0 ≤ e then (m : ℚ) * 10 ^ e.toNat else (m : ℚ) / 10 ^ (-e).toNat

/-- Model of Python `float(s)`: `some` of the exact parsed value, `none`
when Python would raise `ValueError`. -/
def pyFloat (s : List Char) : Option ℚ :=
  (pyFloatRep (pyStrip s)).map (fun p => qOfRep p.1 p.2)

/-- Model of Python `s.split(',')`: splitting any string yields at least
one (possibly empty) field; `"".split(',') = ['']`. -/
def pySplit : List Char → List (List Char)
  | [] => [[]]
  | c :: rest =>
    if c = ',' then [] :: pySplit rest
    else
      match pySplit rest with
      | [] => [[c]]
      | f :: fs => (c :: f) :: fs

/-- The sentinel `ERRVAL = -999` shared by both instrument classes. -/
def ERRVAL : ℚ := -999

/-- The multimeter's overload reply text, `"9.90000000E+37"`. -/
def ovldChars : List Char := ("9.90000000E+37").data

/-- Session state of `AgilentDMM` (the fields the claims observe:
the configured range string, the serial handle `ser2` and the
`isConnected` flag). -/
structure DMMState where
  rangeStr : List Char
  ser2 : Option Unit
  isConnected : Bool
deriving DecidableEq

/-- `AgilentDMM.__init__`: on a successful serial open, the handle is set
and `isConnected := True`; on `SerialException` the constructor does not
raise but records `ser2 = None`, `isConnected = False`.  The setup
commands issued on success do not change these fields. -/
def dmmInit (openOk : Bool) (rangeStr : List Char) : DMMState :=
  if openOk then ⟨rangeStr, some (), true⟩ else ⟨rangeStr, none, false⟩

/-- The `"MEAS:<range>\n"` command written by `readVolts`. -/
def measCmd (rangeStr : List Char) : List Char :=
  ("MEAS:").data ++ rangeStr ++ ['\n']

/-- The `"CONF:<range>\n"` command written by `readVoltsMultiple`. -/
def confCmd (rangeStr : List Char) : List Char :=
  ("CONF:").data ++ rangeStr ++ ['\n']

/-- The `"SAMPLE:COUNT <n>\n"` command written by `readVoltsMultiple`. -/
def sampleCountCmd (n : Nat) : List Char :=
  ("SAMPLE:COUNT ").data ++ (Nat.repr n).data ++ ['\n']

/-- The `"READ?\n"` command written by `readVoltsMultiple`. -/
def readQCmd : List Char := ("READ?").data ++ ['\n']

/-- The per-value rule shared by `readVolts` and the loop body of
`readVoltsMultiple`: if the text with its first character dropped
(Python `val[1:]`) equals the overload string, yield `ERRVAL`; otherwise
`float(val)`, degrading to `ERRVAL` on a parse failure (the bare
`except:` in the source). -/
def dmmParseVal (val : List Char) : ℚ :=
  if val.drop 1 = ovldChars then ERRVAL
  else
    match pyFloat val with
    | some v => v
    | none => ERRVAL

/-- `AgilentDMM.readVolts`.  `reply` is the decoded text of the line the
transport returns (`toStr(self.ser2.readline())`).  Result: the reading
together with the list of commands written to the transport
(`sendCmdNoWait` writes only when `ser2` is not `None`; a `readline` on a
null handle would raise, but `isConnected ∧ ser2 = None` is unreachable,
see the session invariant theorem). -/
def readVolts (st : DMMState) (reply : List Char) : ℚ × List (List Char) :=
  if st.isConnected then
    (dmmParseVal reply,
     if st.ser2.isSome then [measCmd st.rangeStr] else [])
  else
    (ERRVAL, [])

/-- `AgilentDMM.readVoltsMultiple`.  `reply` is the decoded text of the
single line read; `tStart` and `tFinal` are the `time.time()` samples
taken on entry (line 129) and just before the return (line 156 — the
`tEnd` taken at line 135 is overwritten there and only feeds a debug
print).  Result: `((results, elapsed), commands written)`. -/
def readVoltsMultiple (st : DMMState) (nSamp : Nat) (reply : List Char)
    (tStart tFinal : ℚ) : (List ℚ × ℚ) × List (List Char) :=
  if st.isConnected then
    (((pySplit reply).map dmmParseVal, tFinal - tStart),
     if st.ser2.isSome then
       [confCmd st.rangeStr, sampleCountCmd nSamp, readQCmd]
     else [])
  else
    (([ERRVAL], tFinal - tStart), [])

/-- `AgilentDMM.close`: when connected, drain (state-invisible), close and
null the handle, clear the flag; otherwise a diagnostic no-op. -/
def dmmClose (st : DMMState) : DMMState :=
  if st.isConnected then { st with ser2 := none, isConnected := false }
  else st

/-- Python exceptions distinguished by this development. -/
inductive PyErr where
  | typeError
  | valueError
deriving DecidableEq

/-- Session state of `LakeshoreTempLog` (serial handle and flag; the
temperature logger has no range string and no setup phase). -/
structure TLState where
  ser2 : Option Unit
  isConnected : Bool
deriving DecidableEq

/-- `LakeshoreTempLog.__init__`, same shape as the multimeter's. -/
def tlInit (openOk : Bool) : TLState :=
  if openOk then ⟨some (), true⟩ else ⟨none, false⟩

/-- What `LakeshoreTempLog.sendCmd` evaluates to: the decoded reply with
its last two characters chopped (`self.ser2.read(100).decode('utf-8')[:-2]`)
when a handle exists, and the Python int `-1` when `ser2 is None`. -/
inductive SendCmdRet where
  | text (s : List Char)
  | intNegOne
deriving DecidableEq

/-- The `"CRDG? <ch>\r\n"` command. -/
def crdgCmd (chNo : Nat) : List Char :=
  ("CRDG? ").data ++ (Nat.repr chNo).data ++ ['\r', '\n']

/-- `LakeshoreTempLog.sendCmd`: guarded by `ser2 is not None`; `raw` is
the decoded text of the bytes `read(100)` returns.  Also reports the
commands written. -/
def sendCmd (st : TLState) (cmd raw : List Char) : SendCmdRet × List (List Char) :=
  match st.ser2 with
  | some _ => (SendCmdRet.text (pyDropRight 2 raw), [cmd])
  | none => (SendCmdRet.intNegOne, [])

/-- `LakeshoreTempLog.readTempCh`: guarded by `isConnected`; parses the
whole `sendCmd` return with a bare `float(...)` (no `try`), so a parse
failure raises `ValueError`.  In the (unreachable) state connected with a
null handle, Python would compute `float(-1) = -1.0`. -/
def readTempCh (st : TLState) (chNo : Nat) (raw : List Char) :
    Except PyErr ℚ × List (List Char) :=
  if st.isConnected then
    match sendCmd st (crdgCmd chNo) raw with
    | (SendCmdRet.text s, w) =>
      (match pyFloat s with
       | some v => Except.ok v
       | none => Except.error PyErr.valueError, w)
    | (SendCmdRet.intNegOne, w) => (Except.ok (-1), w)
  else
    (Except.ok ERRVAL, [])

/-- The `for temp in readings: results.append(float(temp))` loop of
`readTempAll`: strict parsing, raising `ValueError` at the first field
Python `float()` rejects. -/
def floatList : List (List Char) → Except PyErr (List ℚ)
  | [] => Except.ok []
  | f :: fs =>
    match pyFloat f with
    | none => Except.error PyErr.valueError
    | some v =>
      match floatList fs with
      | Except.error e => Except.error e
      | Except.ok l => Except.ok (v :: l)

/-- `LakeshoreTempLog.readTempAll`.  No `isConnected` guard exists in the
source: it always evaluates `self.sendCmd("CRDG? 0\r\n")[:-3]`.  When
`sendCmd` returned the int `-1`, the slice `(-1)[:-3]` raises
`TypeError`; otherwise the sliced text is split on commas and each field
passed to a bare `float(...)`. -/
def readTempAll (st : TLState) (raw : List Char) :
    Except PyErr (List ℚ) × List (List Char) :=
  match sendCmd st (crdgCmd 0) raw with
  | (SendCmdRet.text s, w) =>
    (floatList (pySplit (pyDropRight 3 s)), w)
  | (SendCmdRet.intNegOne, w) => (Except.error PyErr.typeError, w)

/-- `LakeshoreTempLog.close`, same two fields as the multimeter's. -/
def tlClose (st : TLState) : TLState :=
  if st.isConnected then { st with ser2 := none, isConnected := false }
  else st

/-- `numpy.ndarray.mean` over the reading list: sum divided by length. -/
def npMean (v : List ℚ) : ℚ := v.sum / v.length

/-- The square of `numpy.ndarray.std` (population variance,
`mean(|x - x.mean()|^2)`); `std` itself is its square root, so which
values enter `std` is exactly which values enter this variance. -/
def npVar (v : List ℚ) : ℚ :=
  (v.map (fun x => (x - npMean v) ^ 2)).sum / v.length

/-- One iteration of `Test.runTest`'s logging loop, restricted to the two
statistics written to the log record: `v1, t = dvm1.readVoltsMultiple(nSamp)`
then `m = v1.mean()`, `s = v1.std()`; the pair `(m, s^2)` is returned. -/
def runTestStats (dvm1 : DMMState) (nSamp : Nat) (reply : List Char)
    (tStart tFinal : ℚ) : ℚ × ℚ :=
  let v1 := ((readVoltsMultiple dvm1 nSamp reply tStart tFinal).1).1
  (npMean v1, npVar v1)

/-- Operations a caller can perform on a constructed `AgilentDMM` session
(each carries the oracle inputs the operation consumes). -/
inductive DMMOp where
  | rdVolts (reply : List Char)
  | rdVoltsMultiple (nSamp : Nat) (reply : List Char) (tStart tFinal : ℚ)
  | doClose

/-- State transition of one `AgilentDMM` operation: the read operations
leave `ser2` and `isConnected` unchanged; `close` nulls and clears them. -/
def dmmStep (st : DMMState) : DMMOp → DMMState
  | DMMOp.rdVolts _ => st
  | DMMOp.rdVoltsMultiple _ _ _ _ => st
  | DMMOp.doClose => dmmClose st

/-- The `AgilentDMM` session state after construction followed by a
sequence of operations. -/
def dmmRun (openOk : Bool) (rangeStr : List Char) (ops : List DMMOp) : DMMState :=
  List.foldl dmmStep (dmmInit openOk rangeStr) ops

/-- Operations a caller can perform on a constructed `LakeshoreTempLog`
session. -/
inductive TLOp where
  | rdTempCh (chNo : Nat) (raw : List Char)
  | rdTempAll (raw : List Char)
  | doClose

/-- State transition of one `LakeshoreTempLog` operation. -/
def tlStep (st : TLState) : TLOp → TLState
  | TLOp.rdTempCh _ _ => st
  | TLOp.rdTempAll _ => st
  | TLOp.doClose => tlClose st

/-- The `LakeshoreTempLog` session state after construction followed by a
sequence of operations. -/
def tlRun (openOk : Bool) (ops : List TLOp) : TLState :=
  List.foldl tlStep (tlInit openOk) ops

/-- The connected-iff-handle invariant of claim C8, multimeter side. -/
def dmmInv (st : DMMState) : Prop := st.isConnected = st.ser2.isSome

/-- The connected-iff-handle invariant of claim C8, logger side. -/
def tlInv (st : TLState) : Prop := st.isConnected = st.ser2.isSome

/-- Spec-worded strict parse of a field list ("parses each field as a
float with no sentinel substitution"): `some` of the parsed values when
every field parses, `none` as soon as any field fails. -/
def parseAllOpt : List (List Char) → Option (List ℚ)
  | [] => some []
  | f :: fs =>
    match pyFloat f, parseAllOpt fs with
    | some v, some l => some (v :: l)
    | _, _ => none

/-- Spec-worded `readAllChannels` on the reply text it receives from
`sendCmd`: "strips exactly a fixed 3-character suffix from the reply it
reads, splits the remainder on commas, and parses each field as a float
with no sentinel substitution; a field that fails float parsing makes the
call raise" — the raised exception being `ValueError` from `float`. -/
def specReadAllChannels (reply : List Char) : Except PyErr (List ℚ) :=
  match parseAllOpt (pySplit (pyDropRight 3 reply)) with
  | some l => Except.ok l
  | none => Except.error PyErr.valueError

/-- Splitting never produces an empty field list (Python
`s.split(',')` always yields at least one element). -/
theorem pySplit_ne_nil (s : List Char) : pySplit s ≠ [] := by
  induction s with
  | nil => simp [pySplit]
  | cons c rest ih =>
    simp only [pySplit]
    split
    · simp
    · rcases h : pySplit rest with _ | ⟨f, fs⟩ <;> simp [h]

/-- The strict `float` loop of `readTempAll` agrees with the spec-worded
all-or-raise parse. -/
theorem floatList_eq_parseAllOpt (fs : List (List Char)) :
    floatList fs = match parseAllOpt fs with
      | some l => Except.ok l
      | none => Except.error PyErr.valueError := by
  induction fs with
  | nil => rfl
  | cons f fs ih =>
    cases hf : pyFloat f with
    | none => simp [floatList, parseAllOpt, hf]
    | some v =>
      cases hp : parseAllOpt fs with
      | none => simp [floatList, parseAllOpt, hf, hp, ih]
      | some l => simp [floatList, parseAllOpt, hf, hp, ih]

/-- `float("12.0") = 12`. -/
theorem pyFloat_12 : pyFloat (("12.0").data) = some 12 := by
  have h : pyFloatRep (pyStrip (("12.0").data)) = some (120, -1) := by decide
  simp [pyFloat, h, qOfRep]
  norm_num

/-- `float("-3.5") = -3.5`. -/
theorem pyFloat_neg35 : pyFloat (("-3.5").data) = some (-(7 / 2)) := by
  have h : pyFloatRep (pyStrip (("-3.5").data)) = some (-35, -1) := by decide
  simp [pyFloat, h, qOfRep]
  norm_num

/-- `float("9.90000000E+37") = 9.9e37` (exactly `99 * 10 ^ 36`). -/
theorem pyFloat_ovld : pyFloat ovldChars = some (99 * 10 ^ 36) := by
  have h : pyFloatRep (pyStrip ovldChars) = some (990000000, 29) := by decide
  simp [pyFloat, h, qOfRep]
  norm_num

/-- `float("1.0") = 1`. -/
theorem pyFloat_1 : pyFloat (("1.0").data) = some 1 := by
  have h : pyFloatRep (pyStrip (("1.0").data)) = some (10, -1) := by decide
  simp [pyFloat, h, qOfRep]
  try norm_num

/-- `float("2.0") = 2`. -/
theorem pyFloat_2 : pyFloat (("2.0").data) = some 2 := by
  have h : pyFloatRep (pyStrip (("2.0").data)) = some (20, -1) := by decide
  simp [pyFloat, h, qOfRep]
  norm_num

/-- `float("abc")` raises `ValueError`. -/
theorem pyFloat_abc : pyFloat (("abc").data) = none := by
  have h : pyFloatRep (pyStrip (("abc").data)) = none := by decide
  simp [pyFloat, h]

/-- Field `"12.0"` of a batch reply is parsed to `12`. -/
theorem dmmParseVal_12 : dmmParseVal (("12.0").data) = 12 := by
  have hx : ¬ (("12.0").data.drop 1 = ovldChars) := by decide
  unfold dmmParseVal
  rw [if_neg hx, pyFloat_12]

/-- Field `"-3.5"` of a batch reply is parsed to `-3.5`. -/
theorem dmmParseVal_neg35 : dmmParseVal (("-3.5").data) = -(7 / 2) := by
  have hx : ¬ (("-3.5").data.drop 1 = ovldChars) := by decide
  unfold dmmParseVal
  rw [if_neg hx, pyFloat_neg35]

/-- A bare overload field does not match the `val[1:]` comparison and is
parsed as the float `9.9e37`. -/
theorem dmmParseVal_ovld_field : dmmParseVal ovldChars = 99 * 10 ^ 36 := by
  have hx : ¬ (ovldChars.drop 1 = ovldChars) := by decide
  unfold dmmParseVal
  rw [if_neg hx, pyFloat_ovld]

/-- Field `"1.0"` of a batch reply is parsed to `1`. -/
theorem dmmParseVal_1 : dmmParseVal (("1.0").data) = 1 := by
  have hx : ¬ (("1.0").data.drop 1 = ovldChars) := by decide
  unfold dmmParseVal
  rw [if_neg hx, pyFloat_1]

/-- Field `"abc"` of a batch reply degrades to the sentinel. -/
theorem dmmParseVal_abc : dmmParseVal (("abc").data) = ERRVAL := by
  have hx : ¬ (("abc").data.drop 1 = ovldChars) := by decide
  unfold dmmParseVal
  rw [if_neg hx, pyFloat_abc]

/-- The C2 test reply splits into its three fields. -/
theorem pySplit_c2reply :
    pySplit (("12.0,-3.5,9.90000000E+37").data)
      = [("12.0").data, ("-3.5").data, ovldChars] := by decide

/-- The C7 demonstration reply splits into its two fields. -/
theorem pySplit_c7reply :
    pySplit (("1.0,abc").data) = [("1.0").data, ("abc").data] := by decide

/-- One `AgilentDMM` operation preserves the connected-iff-handle
invariant. -/
theorem dmmStep_inv (st : DMMState) (op : DMMOp) (h : dmmInv st) :
    dmmInv (dmmStep st op) := by
  cases op with
  | rdVolts reply => exact h
  | rdVoltsMultiple n reply t1 t2 => exact h
  | doClose =>
    show dmmInv (dmmClose st)
    unfold dmmInv dmmClose at *
    split
    · simp
    · exact h

/-- One `LakeshoreTempLog` operation preserves the connected-iff-handle
invariant. -/
theorem tlStep_inv (st : TLState) (op : TLOp) (h : tlInv st) :
    tlInv (tlStep st op) := by
  cases op with
  | rdTempCh chNo raw => exact h
  | rdTempAll raw => exact h
  | doClose =>
    show tlInv (tlClose st)
    unfold tlInv tlClose at *
    split
    · simp
    · exact h

/-- The invariant is inductive along any operation sequence (multimeter). -/
theorem dmmFoldl_inv (ops : List DMMOp) (st : DMMState) (h : dmmInv st) :
    dmmInv (List.foldl dmmStep st ops) := by
  induction ops generalizing st with
  | nil => exact h
  | cons op ops ih => exact ih _ (dmmStep_inv st op h)

/-- The invariant is inductive along any operation sequence (logger). -/
theorem tlFoldl_inv (ops : List TLOp) (st : TLState) (h : tlInv st) :
    tlInv (List.foldl tlStep st ops) := by
  induction ops generalizing st with
  | nil => exact h
  | cons op ops ih => exact ih _ (tlStep_inv st op h)

/-- On a freshly constructed connected session, `readVoltsMultiple`
returns the per-field parse of the comma-split reply. -/
theorem readVoltsMultiple_conn_results (rangeStr : List Char) (n : Nat)
    (reply : List Char) (t1 t2 : ℚ) :
    ((readVoltsMultiple (dmmInit true rangeStr) n reply t1 t2).1).1
      = List.map dmmParseVal (pySplit reply) := rfl

/-- On a freshly constructed connected session, the elapsed duration is
the difference of the two clock samples. -/
theorem readVoltsMultiple_conn_elapsed (rangeStr : List Char) (n : Nat)
    (reply : List Char) (t1 t2 : ℚ) :
    ((readVoltsMultiple (dmmInit true rangeStr) n reply t1 t2).1).2
      = t2 - t1 := rfl

/-- On a session whose serial open failed, `readVoltsMultiple` returns
the one-element sentinel list, the clock-sample difference, and performs
no write. -/
theorem readVoltsMultiple_disc (rangeStr : List Char) (n : Nat)
    (reply : List Char) (t1 t2 : ℚ) :
    readVoltsMultiple (dmmInit false rangeStr) n reply t1 t2
      = (([ERRVAL], t2 - t1), []) := rfl

/-- On a freshly constructed connected session, `readVolts` parses the
reply and writes the measurement command. -/
theorem readVolts_conn (rangeStr reply : List Char) :
    readVolts (dmmInit true rangeStr) reply
      = (dmmParseVal reply, [measCmd rangeStr]) := rfl

/-- On a session whose serial open failed, `readVolts` returns the
sentinel and performs no write. -/
theorem readVolts_disc (rangeStr reply : List Char) :
    readVolts (dmmInit false rangeStr) reply = (ERRVAL, []) := rfl

/-- Claim C1: for every connected multimeter session and every reply line
whose decoded text, after ignoring exactly one leading framing character,
equals the overload-sentinel string `"9.90000000E+37"`, `readVolts`
returns the numeric sentinel `-999` (`ERRVAL`) and never a parsed
float. -/
theorem c1_overload_returns_sentinel (rangeStr reply : List Char)
    (hov : reply.drop 1 = ovldChars) :
    (readVolts (dmmInit true rangeStr) reply).1 = ERRVAL := by
  simp [readVolts, dmmInit, dmmParseVal, hov]

/-- Witness for C1: the framed overload reply `"+9.90000000E+37"`. -/
theorem c1_witness :
    ("+9.90000000E+37").data.drop 1 = ovldChars ∧
    (readVolts (dmmInit true (("VOLT:DC 10,DEF").data))
        (("+9.90000000E+37").data)).1 = ERRVAL :=
  ⟨by decide,
   c1_overload_returns_sentinel (("VOLT:DC 10,DEF").data)
     (("+9.90000000E+37").data) (by decide)⟩

/-- Claim C2 as stated is false: on the reply
`"12.0,-3.5,9.90000000E+37"` with `sampleCount = 3` the connected session
does not return `[12.0, -3.5, ERRVAL]` — the overload comparison drops
the first character of each field, so the bare third field fails the
comparison and is parsed as the float `9.9e37`. -/
theorem c2_counterexample :
    ((readVoltsMultiple (dmmInit true (("VOLT:DC 10,DEF").data)) 3
        (("12.0,-3.5,9.90000000E+37").data) 0 1).1).1
      ≠ [12, -(7 / 2), ERRVAL] := by
  have hval :
      ((readVoltsMultiple (dmmInit true (("VOLT:DC 10,DEF").data)) 3
          (("12.0,-3.5,9.90000000E+37").data) 0 1).1).1
        = [12, -(7 / 2), 99 * 10 ^ 36] := by
    rw [readVoltsMultiple_conn_results, pySplit_c2reply, List.map_cons,
      List.map_cons, List.map_cons, List.map_nil, dmmParseVal_12,
      dmmParseVal_neg35, dmmParseVal_ovld_field]
  rw [hval]
  unfold ERRVAL
  intro hcontra
  have h3 : (99 * 10 ^ 36 : ℚ) = -999 := by
    injection hcontra with h1 hrest
    injection hrest with h2 hrest2
    injection hrest2 with h3 _
  norm_num at h3

/-- Claim C2 (amended): on the reply `"12.0,-3.5,9.90000000E+37"` with
`sampleCount = 3`, a connected session returns `[12.0, -3.5, 9.9e37]` —
the first two fields parsed independently, the bare overload field parsed
as a float because the overload comparison only matches after dropping
the field's first character — together with an elapsed duration ≥ 0
(difference of the exit and entry wall-clock samples). -/
theorem c2_amended (rangeStr : List Char) (t1 t2 : ℚ) (hmono : t1 ≤ t2) :
    ((readVoltsMultiple (dmmInit true rangeStr) 3
        (("12.0,-3.5,9.90000000E+37").data) t1 t2).1).1
      = [12, -(7 / 2), 99 * 10 ^ 36] ∧
    0 ≤ ((readVoltsMultiple (dmmInit true rangeStr) 3
        (("12.0,-3.5,9.90000000E+37").data) t1 t2).1).2 := by
  constructor
  · rw [readVoltsMultiple_conn_results, pySplit_c2reply, List.map_cons,
      List.map_cons, List.map_cons, List.map_nil, dmmParseVal_12,
      dmmParseVal_neg35, dmmParseVal_ovld_field]
  · rw [readVoltsMultiple_conn_elapsed]
    linarith

/-- Witness for the amended C2 at clock samples `0` and `1`. -/
theorem c2_witness :
    (0 : ℚ) ≤ 1 ∧
    (((readVoltsMultiple (dmmInit true (("VOLT:DC 10,DEF").data)) 3
        (("12.0,-3.5,9.90000000E+37").data) 0 1).1).1
      = [12, -(7 / 2), 99 * 10 ^ 36] ∧
    0 ≤ ((readVoltsMultiple (dmmInit true (("VOLT:DC 10,DEF").data)) 3
        (("12.0,-3.5,9.90000000E+37").data) 0 1).1).2) :=
  ⟨by norm_num, c2_amended (("VOLT:DC 10,DEF").data) 0 1 (by norm_num)⟩

/-- Claim C3 (code bug): on a session whose serial open failed
(Disconnected), `readVolts`, `readVoltsMultiple` and `readTempCh` do
return the sentinel immediately without writing to the transport, but
`readTempAll` does not — it has no `isConnected` guard, `sendCmd` returns
the Python int `-1`, and the slice `(-1)[:-3]` raises `TypeError` instead
of returning a sentinel sequence. -/
theorem c3_disconnected_behavior (rangeStr reply raw : List Char)
    (n chNo : Nat) (t1 t2 : ℚ) :
    readVolts (dmmInit false rangeStr) reply = (ERRVAL, []) ∧
    readVoltsMultiple (dmmInit false rangeStr) n reply t1 t2
      = (([ERRVAL], t2 - t1), []) ∧
    readTempCh (tlInit false) chNo raw = (Except.ok ERRVAL, []) ∧
    readTempAll (tlInit false) raw = (Except.error PyErr.typeError, []) :=
  ⟨readVolts_disc rangeStr reply, readVoltsMultiple_disc rangeStr n reply t1 t2,
   rfl, rfl⟩

/-- Claim C4 as stated is false: on a Disconnected multimeter session the
elapsed duration returned by `readVoltsMultiple` is the difference of two
separate `time.time()` samples (taken on entry and just before the
return), which the code does not force to be zero — with clock samples
`0` and `1` the elapsed duration is `1`, not exactly `0`. -/
theorem c4_counterexample :
    ((readVoltsMultiple (dmmInit false (("VOLT:DC 10,DEF").data)) 5 [] 0 1).1).2
      ≠ 0 := by
  have h : ((readVoltsMultiple (dmmInit false (("VOLT:DC 10,DEF").data))
      5 [] 0 1).1).2 = 1 - 0 := rfl
  rw [h]
  norm_num

/-- Claim C4 (amended): on a Disconnected multimeter session,
`readVoltsMultiple` returns the single-element sentinel sequence with an
elapsed duration equal to the difference of the exit and entry clock
samples — nonnegative for a monotone clock, but not necessarily zero —
and neither `readVolts` nor `readVoltsMultiple` performs any write to the
transport. -/
theorem c4_amended (rangeStr reply : List Char) (n : Nat) (t1 t2 : ℚ)
    (hmono : t1 ≤ t2) :
    readVoltsMultiple (dmmInit false rangeStr) n reply t1 t2
      = (([ERRVAL], t2 - t1), []) ∧
    0 ≤ ((readVoltsMultiple (dmmInit false rangeStr) n reply t1 t2).1).2 ∧
    readVolts (dmmInit false rangeStr) reply = (ERRVAL, []) := by
  refine ⟨readVoltsMultiple_disc rangeStr n reply t1 t2, ?_,
    readVolts_disc rangeStr reply⟩
  have h : ((readVoltsMultiple (dmmInit false rangeStr) n reply t1 t2).1).2
      = t2 - t1 := rfl
  rw [h]
  linarith

/-- Witness for the amended C4 at clock samples `0` and `1`. -/
theorem c4_witness :
    (0 : ℚ) ≤ 1 ∧
    (readVoltsMultiple (dmmInit false (("VOLT:DC 10,DEF").data)) 5 [] 0 1
      = (([ERRVAL], 1 - 0), []) ∧
    0 ≤ ((readVoltsMultiple (dmmInit false (("VOLT:DC 10,DEF").data)) 5 [] 0 1).1).2 ∧
    readVolts (dmmInit false (("VOLT:DC 10,DEF").data)) [] = (ERRVAL, [])) :=
  ⟨by norm_num, c4_amended (("VOLT:DC 10,DEF").data) [] 5 0 1 (by norm_num)⟩

/-- Claim C5: on a connected multimeter session, whenever the reply
splits into `k` comma-separated fields with `k < sampleCount`, the result
sequence of `readVoltsMultiple` has length exactly `k`; no exception is
raised (the embedding is a total function: every field maps to a parsed
float or the sentinel). -/
theorem c5_short_reply (rangeStr reply : List Char) (n : Nat) (t1 t2 : ℚ)
    (_hshort : (pySplit reply).length < n) :
    (((readVoltsMultiple (dmmInit true rangeStr) n reply t1 t2).1).1).length
      = (pySplit reply).length := by
  rw [readVoltsMultiple_conn_results, List.length_map]

/-- Witness for C5: a 2-field reply with `sampleCount = 5` yields a
length-2 sequence. -/
theorem c5_witness :
    (pySplit (("1.0,2.0").data)).length < 5 ∧
    (((readVoltsMultiple (dmmInit true (("VOLT:DC 10,DEF").data)) 5
        (("1.0,2.0").data) 0 1).1).1).length = (pySplit (("1.0,2.0").data)).length :=
  ⟨by decide,
   c5_short_reply (("VOLT:DC 10,DEF").data) (("1.0,2.0").data) 5 0 1 (by decide)⟩

/-- Claim C6: on a connected temperature-logger session, `readTempAll`
strips exactly a fixed 3-character suffix from the reply `sendCmd` hands
it (`sendCmd` itself having chopped the 2-character line terminator from
the wire text `raw`), splits the remainder on commas, and parses every
field with a bare `float`: all fields parse and the exact values are
returned with no sentinel substitution, or the first failing field makes
the call raise `ValueError`, which propagates to the caller. -/
theorem c6_readTempAll_strict (raw : List Char) :
    (readTempAll (tlInit true) raw).1
      = specReadAllChannels (pyDropRight 2 raw) := by
  have h : (readTempAll (tlInit true) raw).1
      = floatList (pySplit (pyDropRight 3 (pyDropRight 2 raw))) := rfl
  rw [h, floatList_eq_parseAllOpt]
  rfl

/-- Claim C7: in every iteration of `Test.runTest`'s logging loop, the
mean and the standard deviation written to the log record are computed
over the entire sequence returned by `readVoltsMultiple` (the variance —
the square of `numpy.std` — likewise), with sentinel values included in
the statistic rather than filtered out: on the reply `"1.0,abc"` the
batch is `[1, ERRVAL]`, the recorded mean is `-499`, not the
sentinel-free mean `1`. -/
theorem c7_stats_include_sentinels :
    (∀ (st : DMMState) (n : Nat) (reply : List Char) (t1 t2 : ℚ),
        runTestStats st n reply t1 t2
          = (npMean (((readVoltsMultiple st n reply t1 t2).1).1),
             npVar (((readVoltsMultiple st n reply t1 t2).1).1))) ∧
    ((readVoltsMultiple (dmmInit true (("VOLT:DC 10,DEF").data)) 2
        (("1.0,abc").data) 0 1).1).1 = [1, ERRVAL] ∧
    npMean [1, ERRVAL] = -499 ∧
    npMean [1] = 1 := by
  refine ⟨fun st n reply t1 t2 => rfl, ?_, ?_, ?_⟩
  · rw [readVoltsMultiple_conn_results, pySplit_c7reply, List.map_cons,
      List.map_cons, List.map_nil, dmmParseVal_1, dmmParseVal_abc]
  · unfold npMean ERRVAL
    norm_num
  · unfold npMean
    norm_num

/-- Claim C8: for every multimeter and every temperature-logger session,
after construction and after every sequence of operations (including
`close`), the `isConnected` flag is true exactly when the serial handle
`ser2` is non-null: no partially-open state is ever observable. -/
theorem c8_session_invariant (okD : Bool) (rangeStr : List Char)
    (opsD : List DMMOp) (okT : Bool) (opsT : List TLOp) :
    dmmInv (dmmRun okD rangeStr opsD) ∧ tlInv (tlRun okT opsT) := by
  constructor
  · unfold dmmRun
    apply dmmFoldl_inv
    cases okD <;> simp [dmmInit, dmmInv]
  · unfold tlRun
    apply tlFoldl_inv
    cases okT <;> simp [tlInit, tlInv]

/-- Claim C9 (implicit): on a connected multimeter session, a decoded
reply that is exactly the overload string `"9.90000000E+37"` with no
leading framing character is NOT detected as overload — the comparison
drops the reply's first character first — so `readVolts` returns the
parsed float `9.9e37`, not the sentinel. -/
theorem c9_bare_overload_parses (rangeStr : List Char) :
    (readVolts (dmmInit true rangeStr) ovldChars).1 = 99 * 10 ^ 36 ∧
    (readVolts (dmmInit true rangeStr) ovldChars).1 ≠ ERRVAL := by
  have hval : (readVolts (dmmInit true rangeStr) ovldChars).1
      = dmmParseVal ovldChars := rfl
  rw [hval, dmmParseVal_ovld_field]
  refine ⟨rfl, ?_⟩
  unfold ERRVAL
  norm_num

/-- Claim C10 (implicit): for every session state, every sample count and
every reply line (the empty string included), the result sequence of
`readVoltsMultiple` has length at least 1 — splitting on commas yields at
least one field and each field maps to a parsed float or the sentinel —
so the logging loop never receives an empty sequence. -/
theorem c10_batch_nonempty (st : DMMState) (n : Nat) (reply : List Char)
    (t1 t2 : ℚ) :
    1 ≤ (((readVoltsMultiple st n reply t1 t2).1).1).length := by
  by_cases hc : st.isConnected
  · have h1 : (((readVoltsMultiple st n reply t1 t2).1).1)
        = List.map dmmParseVal (pySplit reply) := by
      unfold readVoltsMultiple
      rw [if_pos hc]
    rw [h1, List.length_map]
    exact List.length_pos.mpr (pySplit_ne_nil reply)
  · have h1 : (((readVoltsMultiple st n reply t1 t2).1).1) = [ERRVAL] := by
      unfold readVoltsMultiple
      rw [if_neg hc]
    rw [h1]
    exact Nat.le_refl 1
